import Mathlib

/-!
# Verification of the sallybraids booking logic

Shallow embedding of the booking-domain logic of `src/assets/app.js` and
`src/assets/admin.js` (a salon booking site with a localStorage-backed mock
API), together with proofs settling the specification claims.

Modelling conventions:
* JS numbers are modelled as exact rationals (`ℚ`) for currency and as `ℕ`
  for hours/counters; `Number(string)` returning `NaN` is modelled as
  `Option.none`.
* Strings are manipulated through their character lists so that every
  definition evaluates inside the kernel.
* The localStorage-backed store (`sb_bookings`, `sb_blackout_dates`) is an
  explicit `Store` value threaded through the operations; `Date.now()` /
  `new Date().toISOString()` are passed in as parameters.
* Statuses are plain strings, as in the JS code.
-/

namespace Sallybraids

/-! ## JS string primitives -/

/-- `l` contains `pat` as a contiguous sublist (JS `String.prototype.includes`). -/
def csContains (pat : List Char) : List Char → Bool
  | [] => pat.isEmpty
  | c :: t => pat.isPrefixOf (c :: t) || csContains pat t

/-- JS `s.toUpperCase()` restricted to ASCII, as a character list. -/
def jsUpper (cs : List Char) : List Char := cs.map Char.toUpper

/-- Digits-to-number accumulator (JS `parseInt` on an all-digit string). -/
def digitsToNat (l : List Char) : Nat := l.foldl (fun n c => n * 10 + (c.toNat - 48)) 0

/-- JS `Number(s)` on the strings arising in this code base: the empty string
is `0`, an all-digit string parses, anything else is `NaN` (`none`). -/
def jsNumber (s : String) : Option Nat :=
  let cs := s.toList
  if cs.isEmpty then some 0
  else if cs.all Char.isDigit then some (digitsToNat cs) else none

/-- JS `s.trim()`. -/
def jsTrim (s : String) : String :=
  String.mk (((s.toList.dropWhile Char.isWhitespace).reverse.dropWhile Char.isWhitespace).reverse)

/-- JS `s.split(':')[0]`: the characters before the first colon. -/
def beforeColon (s : String) : String := String.mk (s.toList.takeWhile (fun c => c ≠ ':'))

/-- JS `s.split(':')[1]` for a string containing a colon: the characters
between the first and second colon. (Only ever applied to `"HH:MM"` strings.) -/
def afterColon (s : String) : String :=
  String.mk (((s.toList.dropWhile (fun c => c ≠ ':')).drop 1).takeWhile (fun c => c ≠ ':'))

/-- JS `n.toString().padStart(2, '0')` for the `Nat`-valued inputs used here. -/
def pad2 (n : Nat) : String := if n < 10 then "0" ++ Nat.repr n else Nat.repr n

/-! ## JS values

`parseTimeRestriction` receives `service.notes`, which may be `null`,
`undefined`, a non-array, or an array of arbitrary values; only genuine
arrays are scanned and only string elements can match (`typeof note ===
'string'`).  The fragment of JS values needed for that interface: -/

inductive JsValue where
  | null
  | undef
  | bool (b : Bool)
  | num (q : ℚ)
  | str (s : String)
  | arr (xs : List JsValue)

/-! ## Restriction parser (`src/assets/app.js` lines 107–137) -/

/-- The leftmost match of the regex `/(\d+)(AM|PM)/i` in a character list:
its captured digit run (as a number) and whether the period is `PM`.
A match at a position consumes the maximal digit run starting there and
requires `AM`/`PM` (case-insensitive) immediately after it; backtracking
inside the digit run cannot help, since a digit never matches `A`/`P`. -/
def findAmPm : List Char → Option (Nat × Bool)
  | [] => none
  | c :: rest =>
    if c.isDigit then
      let run := (c :: rest).takeWhile Char.isDigit
      match (c :: rest).dropWhile Char.isDigit with
      | a :: m :: _ =>
        if (a.toUpper == 'A' || a.toUpper == 'P') && m.toUpper == 'M' then
          some (digitsToNat run, a.toUpper == 'P')
        else findAmPm rest
      | _ => findAmPm rest
    else findAmPm rest

/-- The 12h→24h conversion of `parseTimeRestriction` (app.js lines 119–123):
`hours += 12` when `PM` and `hours ≠ 12`; `hours = 0` when `AM` and
`hours = 12`. -/
def convert12 (hours : Nat) (isPM : Bool) : Nat :=
  let h1 := if isPM && hours != 12 then hours + 12 else hours
  if !isPM && h1 == 12 then 0 else h1

/-- A note triggers the scan when it is a string whose upper-cased text
contains `"DO NOT BOOK AFTER"` (app.js lines 110–112). -/
def hasRestrictionPhrase : JsValue → Bool
  | .str s => csContains "DO NOT BOOK AFTER".toList (jsUpper s.toList)
  | _ => false

/-- `parseTimeRestriction(notes)` (app.js lines 107–126): `null` for a
non-array; otherwise the first note containing the phrase is matched against
`/(\d+)(AM|PM)/i` and converted, and `null` is returned when no note has the
phrase or the found note has no match. -/
def parseTimeRestriction : JsValue → Option Nat
  | .arr notes =>
    match notes.find? hasRestrictionPhrase with
    | some (.str s) =>
      match findAmPm s.toList with
      | some (digits, isPM) => some (convert12 digits isPM)
      | none => none
    | _ => none
  | _ => none

example : parseTimeRestriction (.arr [.str "DO NOT BOOK AFTER 8AM"]) = some 8 := by decide
example : parseTimeRestriction (.arr [.str "do not book after 12pm"]) = some 12 := by decide
example : parseTimeRestriction (.arr [.str "DO NOT BOOK AFTER 12AM"]) = some 0 := by decide
example : parseTimeRestriction (.arr [.str "please arrive early"]) = none := by decide
example : parseTimeRestriction .null = none := by decide

/-! ## Data model -/

structure Customer where
  name : String
  phone : String
  email : String
deriving DecidableEq, Repr

/-- A stored booking (the objects held in the `sb_bookings` localStorage key;
field set as in `README.md` and as assembled by `handleBookingSubmit` plus
the mock `POST /api/bookings` handler). -/
structure Booking where
  id : String
  serviceId : String
  serviceTitle : String
  date : String
  time : String
  customer : Customer
  notes : String
  status : String
  amountDue : ℚ
  depositAmount : ℚ
  depositPercent : ℚ
  createdAt : String
deriving DecidableEq, Repr

/-- A catalog service (`catalog-data` JSON, README §Data Models).  `notes` is
kept as a raw JS value because `parseTimeRestriction` defends against
non-array values. -/
structure Service where
  id : String
  title : String
  category : String
  duration : String
  price : ℚ
  img : Option String
  notes : JsValue

/-- A generated availability slot (app.js lines 250–254). -/
structure TimeSlot where
  time : String
  available : Bool
  label : String
deriving DecidableEq, Repr

/-- The result of `generateTimeSlots` (app.js line 257). -/
structure Availability where
  date : String
  slots : List TimeSlot
deriving DecidableEq, Repr

/-- The localStorage-backed state visible to the client app: the stored
bookings (`sb_bookings`) and the blackout dates (`sb_blackout_dates`). -/
structure Store where
  bookings : List Booking
  blackoutDates : List String
deriving DecidableEq, Repr

/-- The booking payload assembled by `handleBookingSubmit`
(app.js lines 856–870). -/
structure BookingRequest where
  serviceId : String
  serviceTitle : String
  date : String
  time : String
  customer : Customer
  notes : String
  depositPercent : ℚ
  amountDue : ℚ
  depositAmount : ℚ
deriving DecidableEq, Repr

/-- The mock `POST /api/bookings` response (app.js lines 221–227). -/
structure CreateResponse where
  bookingId : String
  status : String
  amountDue : ℚ
  depositAmount : ℚ
  clientSecret : String
deriving DecidableEq, Repr

/-! ## Availability resolver (`src/assets/app.js` lines 236–288) -/

/-- `startHour` (app.js line 238). -/
def startHour : Nat := 7

/-- `endHour` (app.js line 239). -/
def endHour : Nat := 19

/-- The `"HH:00"` time string of a whole-hour slot (app.js line 247). -/
def slotTime (hour : Nat) : String := pad2 hour ++ ":00"

/-- `formatTimeLabel(time)` (app.js lines 263–268).  Only ever applied to the
well-formed `"HH:00"` strings produced by `slotTime`. -/
def formatTimeLabel (time : String) : String :=
  let hours := (jsNumber (beforeColon time)).getD 0
  let minutes := (jsNumber (afterColon time)).getD 0
  let period := if hours ≥ 12 then "PM" else "AM"
  let displayHours := if hours > 12 then hours - 12 else if hours == 0 then 12 else hours
  Nat.repr displayHours ++ ":" ++ pad2 minutes ++ " " ++ period

/-- `generateTimeSlots(dateString)` (app.js lines 236–258): one slot per whole
hour in `[startHour, endHour)`; a slot is available unless some stored
booking — of any status — occupies that exact `(date, time)`. -/
def generateTimeSlots (bookings : List Booking) (dateString : String) : Availability :=
  let dateBookings := bookings.filter (fun b => b.date == dateString)
  let bookedTimes := dateBookings.map (fun b => b.time)
  let slots := (List.range' startHour (endHour - startHour)).map (fun hour =>
    let time := slotTime hour
    { time := time, available := !(bookedTimes.contains time), label := formatTimeLabel time })
  { date := dateString, slots := slots }

/-- The mock `GET /api/availability?date=…` handler (app.js lines 195–201):
it answers with `generateTimeSlots(date)` and never consults the blackout
dates. -/
def getAvailability (store : Store) (date : String) : Availability :=
  generateTimeSlots store.bookings date

/-- The calendar widget's disabling rule for a date cell
(app.js lines 666–676): a date is disabled when it is past or when it is in
the blackout list — this, not `generateTimeSlots`, is where blackout dates
are enforced. -/
def calendarDateDisabled (blackoutDates : List String) (isPast : Bool) (dateString : String) : Bool :=
  isPast || blackoutDates.contains dateString

/-! ## Persistence gateway, mock transport -/

/-- The mock `POST /api/bookings` handler (app.js lines 210–228): stamps the
id, `deposit_pending` status and creation time onto the request, appends it to
the stored bookings unconditionally — no availability or conflict check — and
answers with the create response.  `newId` and `createdAt` stand for
`Date.now()`-derived values. -/
def createBooking (bookings : List Booking) (req : BookingRequest)
    (newId createdAt : String) : List Booking × CreateResponse :=
  let booking : Booking :=
    { id := newId, serviceId := req.serviceId, serviceTitle := req.serviceTitle,
      date := req.date, time := req.time, customer := req.customer, notes := req.notes,
      status := "deposit_pending", amountDue := req.amountDue,
      depositAmount := req.depositAmount, depositPercent := req.depositPercent,
      createdAt := createdAt }
  (bookings ++ [booking],
   { bookingId := newId, status := "deposit_pending", amountDue := req.amountDue,
     depositAmount := req.depositAmount, clientSecret := "mock_client_secret_" ++ newId })

/-- The mock `PATCH /api/bookings/:id` handler together with the
`updateBookingStatus` caller (`src/assets/admin.js` lines 685–706 and
188–199): the first stored booking with the given id has the requested status
merged over it — with no transition validation of any kind — and an unknown id
is rejected with `'Booking not found'`. -/
def patchBookingStatus : List Booking → String → String → Except String (List Booking × Booking)
  | [], _, _ => .error "Booking not found"
  | b :: rest, id, newStatus =>
    if b.id == id then
      let updated := { b with status := newStatus }
      .ok (updated :: rest, updated)
    else
      match patchBookingStatus rest id newStatus with
      | .ok (rest', ub) => .ok (b :: rest', ub)
      | .error e => .error e

/-- Modelled from the spec (§4.4): the booking status transition table —
`deposit_pending → deposit_paid → completed`, and
`deposit_pending|deposit_paid → cancelled|no_show`; everything else is an
invalid transition.  The repository's code contains no such table; this
definition exists to state what the claims assert about transitions. -/
def specLegalTransition (src dst : String) : Bool :=
  (src == "deposit_pending" && dst == "deposit_paid") ||
  (src == "deposit_paid" && dst == "completed") ||
  ((src == "deposit_pending" || src == "deposit_paid") &&
   (dst == "cancelled" || dst == "no_show"))

/-! ## Deposit calculator (`src/assets/app.js` lines 13–18 and 850–854) -/

/-- `CONFIG.DEPOSIT_PERCENT` (app.js line 16). -/
def DEPOSIT_PERCENT : ℚ := 0.35

/-- `CONFIG.DEPOSIT_MIN` (app.js line 17). -/
def DEPOSIT_MIN : ℚ := 15

/-- The deposit formula `Math.max(total * pct, mn)` of `handleBookingSubmit`
(app.js lines 851–854), with the two configuration constants as parameters. -/
def depositCalc (pct mn total : ℚ) : ℚ := max (total * pct) mn

/-- The deposit as actually computed by the client app, at the configured
percent and minimum. -/
def computeDeposit (total : ℚ) : ℚ := depositCalc DEPOSIT_PERCENT DEPOSIT_MIN total

/-! ## Time-restriction check (`src/assets/app.js` lines 131–137) -/

/-- `violatesTimeRestriction(service, timeString)` (app.js lines 131–137):
`false` when the service notes yield no restriction; otherwise the slot
violates when `Number(timeString.split(':')[0]) > maxHour` (a `NaN` hour
compares `false`). -/
def violatesTimeRestriction (service : Service) (timeString : String) : Bool :=
  match parseTimeRestriction service.notes with
  | none => false
  | some maxHour =>
    match jsNumber (beforeColon timeString) with
    | none => false
    | some hours => decide (hours > maxHour)

/-! ## Form validation (`src/assets/app.js` lines 773–814) -/

/-- The test of the regex `/^[^\s@]+@[^\s@]+\.[^\s@]+$/` (app.js line 782):
the string splits as `a ++ "@" ++ r` where `a` is nonempty without
whitespace or `@` (hence `a` is everything before the first `@`), `r` is
nonempty without whitespace or `@`, and `r` splits as `b ++ "." ++ c` with
`b`, `c` nonempty — i.e. `r` has a `'.'` that is neither its first nor its
last character. -/
def emailOk (s : String) : Bool :=
  let cs := s.toList
  let a := cs.takeWhile (fun c => c ≠ '@')
  match cs.dropWhile (fun c => c ≠ '@') with
  | '@' :: r =>
    !a.isEmpty && a.all (fun c => !c.isWhitespace) &&
    !r.isEmpty && r.all (fun c => !c.isWhitespace && c ≠ '@') &&
    ((r.drop 1).dropLast).contains '.'
  | _ => false

/-- The phone test of `validateField` (app.js lines 787–788): the regex
`/^\+?[\d\s\-\(\)]+$/` — an optional leading `+` then one or more of
digit / whitespace / `-` / `(` / `)` — and at least 10 digit characters
(`value.replace(/\D/g, '').length >= 10`). -/
def telOk (s : String) : Bool :=
  let cs := s.toList
  let body := match cs with | '+' :: t => t | l => l
  !body.isEmpty &&
  body.all (fun c => c.isDigit || c.isWhitespace || c == '-' || c == '(' || c == ')') &&
  decide ((cs.filter Char.isDigit).length ≥ 10)

/-- The `type` attribute of a form field, as branched on by `validateField`. -/
inductive FieldType where
  | text
  | email
  | tel
  | select
deriving DecidableEq, Repr

/-- A form field as seen by `validateField`: its (raw) value, `type`, `name`
and `required` flag. -/
structure Field where
  value : String
  type : FieldType
  name : String
  required : Bool
deriving DecidableEq, Repr

/-- `validateField(field)` (app.js lines 773–814), returning the error
message shown inline (`none` when the field passes).  The checks run on the
trimmed value, in the source's `if`/`else if` order. -/
def validateField (f : Field) : Option String :=
  let value := jsTrim f.value
  if f.required && value.isEmpty then some "This field is required"
  else if f.type == .email && !value.isEmpty then
    if emailOk value then none else some "Please enter a valid email address"
  else if f.type == .tel && !value.isEmpty then
    if telOk value then none else some "Please enter a valid phone number"
  else if f.name == "service" && value.isEmpty then some "Please select a service"
  else if f.name == "time" && value.isEmpty then some "Please select a time slot"
  else none

/-! ## Booking submission (`src/assets/app.js` lines 819–918) -/

/-- The submission-time inputs of `handleBookingSubmit`: the form's field
values plus the relevant pieces of the client `STATE`. -/
structure SubmitInput where
  name : String
  phone : String
  email : String
  serviceValue : String
  timeValue : String
  notesField : String
  selectedService : Option Service
  selectedDate : Option String
  selectedTime : Option String

/-- Modelled from the spec (§4.5) — the booking form's markup
(`index.html`) is not under `src/`, so the set of `[required]` fields and
their order is taken from the spec's validation list: customer name (text),
phone (tel), email (email), then the service and time selects. -/
def requiredFields (inp : SubmitInput) : List Field :=
  [ { value := inp.name, type := .text, name := "name", required := true },
    { value := inp.phone, type := .tel, name := "phone", required := true },
    { value := inp.email, type := .email, name := "email", required := true },
    { value := inp.serviceValue, type := .select, name := "service", required := true },
    { value := inp.timeValue, type := .select, name := "time", required := true } ]

/-- The inline errors reported by the `requiredFields.forEach(validateField)`
loop of `handleBookingSubmit` (app.js lines 827–832), as
`(field name, error)` pairs. -/
def submitFieldErrors (inp : SubmitInput) : List (String × String) :=
  (requiredFields inp).filterMap (fun f => (validateField f).map (fun e => (f.name, e)))

/-- `handleBookingSubmit` (app.js lines 819–918) against the mock gateway:
every required field is validated and a date and time must be selected; on
any failure the handler returns before the gateway is contacted (app.js
lines 845–847) and the store is untouched.  On success the deposit is
computed from the selected service's price and the booking is submitted via
`createBooking`.  (When the validations pass but `STATE.selectedService` is
unset the JS handler would crash on a `null` dereference before any gateway
call; that path also leaves the store untouched here.) -/
def handleBookingSubmit (store : Store) (inp : SubmitInput)
    (newId createdAt : String) : Store × Option CreateResponse :=
  let fieldsValid := (requiredFields inp).all (fun f => (validateField f).isNone)
  if fieldsValid && inp.selectedDate.isSome && inp.selectedTime.isSome then
    match inp.selectedService, inp.selectedDate, inp.selectedTime with
    | some svc, some d, some t =>
      let total := svc.price
      let depositAmount := max (total * DEPOSIT_PERCENT) DEPOSIT_MIN
      let req : BookingRequest :=
        { serviceId := svc.id, serviceTitle := svc.title, date := d, time := t,
          customer := { name := inp.name, phone := inp.phone, email := inp.email },
          notes := inp.notesField, depositPercent := DEPOSIT_PERCENT,
          amountDue := total, depositAmount := depositAmount }
      let next := createBooking store.bookings req newId createdAt
      ({ store with bookings := next.1 }, some next.2)
    | _, _, _ => (store, none)
  else (store, none)

/-! ## Spec-side restriction parser -/

/-- Modelled from the spec (§4.2 and claim C6's wording): the parser honors
the first note whose case-insensitive text contains `"DO NOT BOOK AFTER"`
AND a `<digits><AM|PM>` pattern — i.e. notes that carry the phrase but no
pattern are skipped rather than terminating the scan.  Stated for comparison
with the source-derived `parseTimeRestriction`. -/
def parseTimeRestrictionSpec : JsValue → Option Nat
  | .arr notes =>
    match notes.find? (fun v =>
        hasRestrictionPhrase v &&
        (match v with
         | .str s => (findAmPm s.toList).isSome
         | _ => false)) with
    | some (.str s) =>
      match findAmPm s.toList with
      | some (digits, isPM) => some (convert12 digits isPM)
      | none => none
    | _ => none
  | _ => none

/-! ## Helper lemmas -/

/-- A generated slot is available exactly when no stored booking — of any
status — occupies that `(date, time)`. -/
theorem available_iff_not_booked (bookings : List Booking) (dateString : String)
    (slot : TimeSlot) (hmem : slot ∈ (generateTimeSlots bookings dateString).slots) :
    slot.available = true ↔ ¬ ∃ b ∈ bookings, b.date = dateString ∧ b.time = slot.time := by
  simp only [generateTimeSlots, List.mem_map] at hmem
  obtain ⟨hour, -, rfl⟩ := hmem
  simp only [Bool.not_eq_true']
  rw [← Bool.not_eq_true]
  apply not_congr
  rw [List.contains_iff_exists_mem_beq]
  constructor
  · rintro ⟨t, ht, hbeq⟩
    rw [List.mem_map] at ht
    obtain ⟨b, hbf, rfl⟩ := ht
    rw [List.mem_filter] at hbf
    exact ⟨b, hbf.1, by simpa using hbf.2, (beq_iff_eq.mp hbeq).symm⟩
  · rintro ⟨b, hb, hdate, htime⟩
    refine ⟨b.time, List.mem_map.mpr ⟨b, List.mem_filter.mpr ⟨hb, by simpa using hdate⟩, rfl⟩, ?_⟩
    exact beq_iff_eq.mpr htime.symm

/-- When no note carries the restriction phrase, the parser yields no
restriction. -/
theorem parse_no_phrase (xs : List JsValue)
    (h : ∀ v ∈ xs, hasRestrictionPhrase v = false) :
    parseTimeRestriction (.arr xs) = none := by
  have hf : List.find? hasRestrictionPhrase xs = none := List.find?_eq_none.mpr (by simpa using h)
  simp [parseTimeRestriction, hf]

/-- The first phrase-carrying note alone determines the parser's result:
later notes are never consulted, and a missing `<digits><AM|PM>` pattern in
that note yields no restriction. -/
theorem parse_first_phrase (pre : List JsValue) (s : String) (post : List JsValue)
    (hpre : ∀ v ∈ pre, hasRestrictionPhrase v = false)
    (hs : hasRestrictionPhrase (.str s) = true) :
    parseTimeRestriction (.arr (pre ++ .str s :: post)) =
      (findAmPm s.toList).map (fun dp => convert12 dp.1 dp.2) := by
  have hf : List.find? hasRestrictionPhrase (pre ++ .str s :: post) = some (.str s) := by
    rw [List.find?_append, List.find?_eq_none.mpr (by simpa using hpre),
      List.find?_cons_of_pos _ hs]
    rfl
  cases h : findAmPm s.toList with
  | none =>
    simp only [String.toList] at h
    simp [parseTimeRestriction, hf, h]
  | some dp =>
    cases dp
    simp only [String.toList] at h
    simp [parseTimeRestriction, hf, h]

/-- The PATCH handler finds the first booking with the requested id and
overwrites its status with whatever was requested. -/
theorem patch_first_match (pre : List Booking) (b : Booking) (post : List Booking) (s : String)
    (hpre : ∀ b' ∈ pre, b'.id ≠ b.id) :
    patchBookingStatus (pre ++ b :: post) b.id s =
      .ok (pre ++ { b with status := s } :: post, { b with status := s }) := by
  induction pre with
  | nil => simp [patchBookingStatus]
  | cons hd tl ih =>
    have hne : (hd.id == b.id) = false := by
      simpa using hpre hd (List.mem_cons_self hd tl)
    have ih' := ih (fun b' hb' => hpre b' (List.mem_cons_of_mem hd hb'))
    simp [patchBookingStatus, hne, ih']

/-- The PATCH handler rejects an id that matches no stored booking. -/
theorem patch_not_found (bs : List Booking) (id s : String)
    (h : ∀ b ∈ bs, b.id ≠ id) :
    patchBookingStatus bs id s = .error "Booking not found" := by
  induction bs with
  | nil => rfl
  | cons hd tl ih =>
    have hne : (hd.id == id) = false := by
      simpa using h hd (List.mem_cons_self hd tl)
    have ih' := ih (fun b hb => h b (List.mem_cons_of_mem hd hb))
    simp [patchBookingStatus, hne, ih']

/-- The field-validation loop of `handleBookingSubmit` passes exactly when
no field reports an error. -/
theorem fieldsValid_iff_no_errors (inp : SubmitInput) :
    ((requiredFields inp).all (fun f => (validateField f).isNone) = true) ↔
      submitFieldErrors inp = [] := by
  rw [List.all_eq_true]
  unfold submitFieldErrors
  rw [List.filterMap_eq_nil_iff]
  constructor
  · intro h f hf
    rw [Option.map_eq_none']
    exact Option.isNone_iff_eq_none.mp (h f hf)
  · intro h f hf
    rw [Option.isNone_iff_eq_none]
    exact Option.map_eq_none'.mp (h f hf)

/-! ## Concrete fixtures

Concrete values used by counterexamples and witnesses, with the shapes of
the README's example data. -/

/-- A stored `deposit_pending` booking occupying `("2025-11-15", "09:00")`. -/
def booking0 : Booking :=
  { id := "booking-1", serviceId := "smedium-bohemian-fulani",
    serviceTitle := "Smedium Bohemian Fulani", date := "2025-11-15", time := "09:00",
    customer := { name := "Jane Doe", phone := "+1 (555) 123-4567",
                  email := "jane@example.com" },
    notes := "", status := "deposit_pending", amountDue := 250, depositAmount := 88,
    depositPercent := 1, createdAt := "2025-10-26T10:30:00Z" }

/-- A booking request for the same `("2025-11-15", "09:00")` slot. -/
def request0 : BookingRequest :=
  { serviceId := "smedium-bohemian-fulani", serviceTitle := "Smedium Bohemian Fulani",
    date := "2025-11-15", time := "09:00",
    customer := { name := "John Roe", phone := "4165551234", email := "john@example.com" },
    notes := "", depositPercent := 1, amountDue := 250, depositAmount := 88 }

/-- A stored booking at `("2025-11-15", "09:00")` whose status is `cancelled`. -/
def bookingCancelled : Booking :=
  { booking0 with id := "booking-9", status := "cancelled" }

/-- A catalog service whose notes carry the restriction `DO NOT BOOK AFTER 8AM`. -/
def svcRestricted : Service :=
  { id := "smedium-bohemian-fulani", title := "Smedium Bohemian Fulani",
    category := "Bohemian Barbie", duration := "8h 30m", price := 250,
    img := none, notes := .arr [.str "DO NOT BOOK AFTER 8AM"] }

/-- A submission whose fields all validate, selecting `svcRestricted` at
`("2025-11-15", "09:00")`. -/
def inpGood : SubmitInput :=
  { name := "Jane Doe", phone := "+1 (555) 123-4567", email := "jane@example.com",
    serviceValue := "smedium-bohemian-fulani", timeValue := "09:00", notesField := "",
    selectedService := some svcRestricted, selectedDate := some "2025-11-15",
    selectedTime := some "09:00" }

/-- `inpGood` with the invalid email of the spec's test property. -/
def inpBadEmail : SubmitInput := { inpGood with email := "not-an-email" }

/-- `inpGood` with its selected date moved onto a blackout date. -/
def inpBlockedDate : SubmitInput := { inpGood with selectedDate := some "2025-12-25" }

/-- The spec's no-double-booking invariant: no two non-cancelled bookings
share a `(date, time)` pair. -/
def noDouble (bs : List Booking) : Prop :=
  bs.Pairwise (fun a b =>
    a.status = "cancelled" ∨ b.status = "cancelled" ∨ ¬(a.date = b.date ∧ a.time = b.time))

/-! ## Claims -/

/-- C1 (counterexample): with `"2025-12-25"` in the blocked set and no
bookings stored, the availability resolver still answers with the full
12-slot list, every slot available — not an empty or distinguished
"blocked" result. -/
theorem claim1_counterexample :
    "2025-12-25" ∈ (Store.mk [] ["2025-12-25"]).blackoutDates ∧
    (getAvailability (Store.mk [] ["2025-12-25"]) "2025-12-25").slots.length = 12 ∧
    (getAvailability (Store.mk [] ["2025-12-25"]) "2025-12-25").slots.all
      (fun s => s.available) = true := by
  decide

/-- C1 (amended): the availability resolver ignores the blocked set entirely
— its result is invariant under any change to the blackout dates — and
blocked dates are instead excluded by the calendar UI, which renders any
date in the blackout list as disabled so it cannot be selected. -/
theorem claim1_amended :
    (∀ (bookings : List Booking) (bl bl' : List String) (date : String),
      getAvailability ⟨bookings, bl⟩ date = getAvailability ⟨bookings, bl'⟩ date) ∧
    (∀ (bl : List String) (isPast : Bool) (date : String),
      date ∈ bl → calendarDateDisabled bl isPast date = true) := by
  constructor
  · intro bookings bl bl' date
    rfl
  · intro bl isPast date h
    have hc : bl.contains date = true := List.elem_iff.mpr h
    simp [calendarDateDisabled, hc]
    exact Or.inr h

/-- C1 (witness for the amended claim): the calendar disables a concrete
blacked-out date. -/
theorem claim1_witness :
    calendarDateDisabled ["2025-12-25"] false "2025-12-25" = true :=
  claim1_amended.2 ["2025-12-25"] false "2025-12-25" (by decide)

/-- C2 (counterexample): starting from a store that satisfies the
no-double-booking invariant — one `deposit_pending` booking at
`("2025-11-15", "09:00")` — `createBooking` with a request for that same
occupied slot succeeds and produces a store with two non-cancelled bookings
sharing the `(date, time)` pair: the invariant is not preserved. -/
theorem claim2_counterexample :
    noDouble [booking0] ∧
    ¬ noDouble (createBooking [booking0] request0 "booking-2" "2025-10-27T00:00:00Z").1 := by
  constructor
  · exact List.pairwise_singleton _ _
  · intro h
    have h2 := (List.pairwise_cons.mp h).1 _ (List.mem_cons_self _ _)
    rcases h2 with h2 | h2 | h2
    · exact absurd h2 (by decide)
    · exact absurd h2 (by decide)
    · exact h2 ⟨rfl, rfl⟩

/-- C2 (amended): a stored booking of status `deposit_pending` or
`deposit_paid` — in fact of any status — makes its `(date, time)` slot
unavailable in every subsequent availability result; but the
double-booking invariant is NOT preserved by `createBooking`, which appends
the new booking without any conflict check (see the counterexample). -/
theorem claim2_amended :
    ∀ (store : Store) (b : Booking), b ∈ store.bookings →
      (b.status = "deposit_pending" ∨ b.status = "deposit_paid") →
      ∀ slot ∈ (getAvailability store b.date).slots, slot.time = b.time →
        slot.available = false := by
  intro store b hb _ slot hslot htime
  have h := available_iff_not_booked store.bookings b.date slot hslot
  cases hav : slot.available with
  | false => rfl
  | true => exact absurd ⟨b, hb, rfl, htime.symm⟩ (h.mp hav)

/-- C2 (witness): the `09:00` slot of `2025-11-15` is reported unavailable
while `booking0` occupies it. -/
theorem claim2_witness :
    ({ time := "09:00", available := false, label := "9:00 AM" } : TimeSlot).available
      = false :=
  claim2_amended ⟨[booking0], []⟩ booking0 (List.mem_singleton.mpr rfl) (Or.inl rfl)
    _ (by decide) (by decide)

/-- C3 (counterexample): the spec's table forbids `cancelled → deposit_paid`,
yet PATCHing a stored cancelled booking to `deposit_paid` succeeds and
overwrites the stored status — no `InvalidTransition` error, and the stored
booking does not stay unchanged. -/
theorem claim3_counterexample :
    specLegalTransition "cancelled" "deposit_paid" = false ∧
    patchBookingStatus [bookingCancelled] bookingCancelled.id "deposit_paid" =
      .ok ([{ bookingCancelled with status := "deposit_paid" }],
           { bookingCancelled with status := "deposit_paid" }) := by
  constructor
  · decide
  · simp [patchBookingStatus]

/-- C3 (amended): `updateBookingStatus` performs no transition validation at
all: for any stored booking (the first with its id) and ANY requested
status, the PATCH succeeds and overwrites the stored status in place; the
only failing case is an unknown id, rejected with `"Booking not found"`. -/
theorem claim3_amended :
    (∀ (pre : List Booking) (b : Booking) (post : List Booking) (s : String),
      (∀ b' ∈ pre, b'.id ≠ b.id) →
      patchBookingStatus (pre ++ b :: post) b.id s =
        .ok (pre ++ { b with status := s } :: post, { b with status := s })) ∧
    (∀ (bs : List Booking) (id s : String),
      (∀ b ∈ bs, b.id ≠ id) →
      patchBookingStatus bs id s = .error "Booking not found") :=
  ⟨patch_first_match, patch_not_found⟩

/-- C3 (witness): the illegal update `cancelled → completed` applied to a
concrete one-booking store succeeds and overwrites. -/
theorem claim3_witness :
    patchBookingStatus ([] ++ bookingCancelled :: []) bookingCancelled.id "completed" =
      .ok ([] ++ { bookingCancelled with status := "completed" } :: [],
           { bookingCancelled with status := "completed" }) :=
  claim3_amended.1 [] bookingCancelled [] "completed" (by simp)

/-- C4 (counterexample): at the configured 35% / minimum 15, a price of 10
satisfies the claim's side condition `price·pct ≤ price`, yet the computed
deposit is the minimum 15, which exceeds the price — `depositAmount ≤ price`
fails whenever the configured minimum exceeds the price. -/
theorem claim4_counterexample :
    (10 : ℚ) * DEPOSIT_PERCENT ≤ 10 ∧ computeDeposit 10 = 15 ∧
    ¬ computeDeposit 10 ≤ 10 := by
  refine ⟨by norm_num [DEPOSIT_PERCENT], ?_, ?_⟩
  · unfold computeDeposit depositCalc DEPOSIT_PERCENT DEPOSIT_MIN
    rw [max_eq_right (by norm_num)]
  · unfold computeDeposit depositCalc DEPOSIT_PERCENT DEPOSIT_MIN
    rw [max_eq_right (by norm_num)]
    norm_num

/-- C4 (amended): the deposit is exactly `max(price·pct, min)`;
`depositAmount ≤ price` holds under the claim's `price·pct ≤ price`
condition only together with `min ≤ price`; and at the configured values
(35%, minimum 15) the price 250 yields the deposit 87.50. -/
theorem claim4_amended :
    (∀ price pct mn : ℚ, 0 ≤ price → depositCalc pct mn price = max (price * pct) mn) ∧
    (∀ price pct mn : ℚ, price * pct ≤ price → mn ≤ price →
      depositCalc pct mn price ≤ price) ∧
    computeDeposit 250 = 87.5 := by
  refine ⟨fun _ _ _ _ => rfl, fun price pct mn h1 h2 => max_le h1 h2, ?_⟩
  unfold computeDeposit depositCalc DEPOSIT_PERCENT DEPOSIT_MIN
  rw [max_eq_left (by norm_num)]
  norm_num

/-- C4 (witness): the amended bound and formula instantiated at the
configured values and price 250. -/
theorem claim4_witness :
    depositCalc 0.35 15 250 ≤ 250 ∧ depositCalc 0.35 15 250 = max (250 * 0.35) 15 :=
  ⟨claim4_amended.2.1 250 0.35 15 (by norm_num) (by norm_num),
   claim4_amended.1 250 0.35 15 (by norm_num)⟩

/-- C5 (counterexample): a single stored booking with status `cancelled` at
`("2025-11-15", "09:00")` still renders the `09:00` slot unavailable, though
no active (non-cancelled) booking occupies it — the resolver does not filter
by status. -/
theorem claim5_counterexample :
    (∀ b ∈ [bookingCancelled], b.status = "cancelled") ∧
    ∃ slot ∈ (generateTimeSlots [bookingCancelled] "2025-11-15").slots,
      slot.time = "09:00" ∧ slot.available = false := by
  decide

/-- C5 (amended): a generated slot is available exactly when NO stored
booking — of any status, cancelled included — occupies that exact
`(date, time)` pair. -/
theorem claim5_amended :
    ∀ (bookings : List Booking) (dateString : String) (slot : TimeSlot),
      slot ∈ (generateTimeSlots bookings dateString).slots →
      (slot.available = true ↔ ¬ ∃ b ∈ bookings, b.date = dateString ∧ b.time = slot.time) :=
  fun bookings dateString slot h => available_iff_not_booked bookings dateString slot h

/-- C5 (witness): the amended equivalence evaluated at the empty store and a
concrete generated slot. -/
theorem claim5_witness :
    ({ time := "09:00", available := true, label := "9:00 AM" } : TimeSlot).available = true ↔
      ¬ ∃ b ∈ ([] : List Booking), b.date = "2025-11-15" ∧
        b.time = ({ time := "09:00", available := true, label := "9:00 AM" } : TimeSlot).time :=
  claim5_amended [] "2025-11-15" _ (by decide)

/-- C6 (counterexample): with notes
`["DO NOT BOOK AFTER lunch", "DO NOT BOOK AFTER 8AM"]` the first note that
contains the phrase together with a `<digits><AM|PM>` pattern is the second
one, so the claim demands the restriction 8; the code instead stops at the
first phrase-carrying note, finds no pattern in it, and reports no
restriction. -/
theorem claim6_counterexample :
    parseTimeRestriction
        (.arr [.str "DO NOT BOOK AFTER lunch", .str "DO NOT BOOK AFTER 8AM"]) = none ∧
    parseTimeRestrictionSpec
        (.arr [.str "DO NOT BOOK AFTER lunch", .str "DO NOT BOOK AFTER 8AM"]) = some 8 := by
  decide

/-- C6 (amended): the parser honors the first note containing the phrase
(case-insensitively) whether or not that note carries a pattern: that note
alone is matched against `<digits><AM|PM>` and later notes are never
consulted; the 12-hour conversion is 12PM→12, 12AM→0, hour+12 for other PM
hours and the hour unchanged for AM; and with no phrase-carrying note there
is no restriction. -/
theorem claim6_amended :
    (∀ (pre : List JsValue) (s : String) (post : List JsValue),
      (∀ v ∈ pre, hasRestrictionPhrase v = false) →
      hasRestrictionPhrase (.str s) = true →
      parseTimeRestriction (.arr (pre ++ .str s :: post)) =
        (findAmPm s.toList).map (fun dp => convert12 dp.1 dp.2)) ∧
    (∀ xs, (∀ v ∈ xs, hasRestrictionPhrase v = false) →
      parseTimeRestriction (.arr xs) = none) ∧
    (∀ h : Nat, convert12 h true = (if h = 12 then 12 else h + 12) ∧
      convert12 h false = (if h = 12 then 0 else h)) ∧
    parseTimeRestriction (.arr [.str "DO NOT BOOK AFTER 8AM"]) = some 8 ∧
    parseTimeRestriction (.arr [.str "do not book after 12PM"]) = some 12 ∧
    parseTimeRestriction (.arr [.str "DO NOT BOOK AFTER 12AM"]) = some 0 := by
  refine ⟨parse_first_phrase, parse_no_phrase, ?_, by decide, by decide, by decide⟩
  intro h
  constructor <;> by_cases hh : h = 12 <;> simp [convert12, hh]

/-- C6 (witness): the amended first-note rule instantiated with a
non-matching note ahead and a decoy note behind. -/
theorem claim6_witness :
    parseTimeRestriction
        (.arr ([.num 5] ++ .str "DO NOT BOOK AFTER 9AM" :: [.str "DO NOT BOOK AFTER 8AM"])) =
      (findAmPm "DO NOT BOOK AFTER 9AM".toList).map (fun dp => convert12 dp.1 dp.2) :=
  claim6_amended.1 [.num 5] "DO NOT BOOK AFTER 9AM" [.str "DO NOT BOOK AFTER 8AM"]
    (fun v hv => by rw [List.mem_singleton.mp hv]; rfl) (by decide)

/-- C7: with a parsed restriction hour `h`, a time is flagged as violating
exactly when its numeric hour strictly exceeds `h`; and the flag is advisory
only — a submission whose selected time violates the restriction still
passes validation and creates the booking (the restriction is never
consulted on the submission path). -/
theorem claim7 :
    (∀ (svc : Service) (h : Nat) (t : String) (n : Nat),
      parseTimeRestriction svc.notes = some h →
      jsNumber (beforeColon t) = some n →
      (violatesTimeRestriction svc t = true ↔ n > h)) ∧
    (∀ (store : Store) (inp : SubmitInput) (newId createdAt : String)
        (svc : Service) (d t : String),
      inp.selectedService = some svc → inp.selectedDate = some d →
      inp.selectedTime = some t →
      (∀ f ∈ requiredFields inp, validateField f = none) →
      violatesTimeRestriction svc t = true →
      ∃ resp, (handleBookingSubmit store inp newId createdAt).2 = some resp ∧
        resp.status = "deposit_pending" ∧
        (handleBookingSubmit store inp newId createdAt).1.bookings.length =
          store.bookings.length + 1) := by
  constructor
  · intro svc h t n hp hn
    simp [violatesTimeRestriction, hp, hn]
  · intro store inp newId createdAt svc d t hsvc hd ht hval hviol
    have hall : (requiredFields inp).all (fun f => (validateField f).isNone) = true := by
      rw [List.all_eq_true]
      intro f hf
      rw [Option.isNone_iff_eq_none]
      exact hval f hf
    simp only [handleBookingSubmit, hall, hsvc, hd, ht, Option.isSome_some,
      Bool.and_self, if_true, createBooking]
    exact ⟨_, rfl, rfl, by simp⟩

/-- C7 (witness): a concrete submission at `09:00` for a service restricted
to 8AM violates the restriction and is still accepted. -/
theorem claim7_witness :
    (handleBookingSubmit ⟨[], []⟩ inpGood "booking-1" "2025-10-26T10:30:00Z").2.isSome
      = true := by
  obtain ⟨resp, hresp, -, -⟩ :=
    claim7.2 ⟨[], []⟩ inpGood "booking-1" "2025-10-26T10:30:00Z" svcRestricted
      "2025-11-15" "09:00" rfl rfl rfl (by decide) (by decide)
  rw [hresp]
  rfl

/-- C8: on any failed required-field validation the handler aborts before
the persistence gateway is contacted — the store is returned unchanged and
no booking response is produced; the invalid email `"not-an-email"` fails
with the inline email error. -/
theorem claim8 :
    (∀ (store : Store) (inp : SubmitInput) (newId createdAt : String),
      submitFieldErrors inp ≠ [] →
      handleBookingSubmit store inp newId createdAt = (store, none)) ∧
    validateField { value := "not-an-email", type := .email, name := "email",
                    required := true } = some "Please enter a valid email address" := by
  constructor
  · intro store inp newId createdAt herr
    have hall : (requiredFields inp).all (fun f => (validateField f).isNone) = false := by
      have h1 : ¬ ((requiredFields inp).all (fun f => (validateField f).isNone) = true) :=
        fun h => herr ((fieldsValid_iff_no_errors inp).mp h)
      exact Bool.eq_false_iff.mpr h1
    simp [handleBookingSubmit, hall]
  · decide

/-- C8 (witness): the `"not-an-email"` submission against an empty store
leaves the store untouched and reports exactly the email error. -/
theorem claim8_witness :
    handleBookingSubmit ⟨[], []⟩ inpBadEmail "booking-1" "2025-10-26T10:30:00Z" =
      (⟨[], []⟩, none) ∧
    submitFieldErrors inpBadEmail = [("email", "Please enter a valid email address")] :=
  ⟨claim8.1 ⟨[], []⟩ inpBadEmail "booking-1" "2025-10-26T10:30:00Z" (by decide), by decide⟩

/-- C9 (counterexample): a submission whose selected date is in the blocked
set, with all fields valid, is accepted — the booking is created and stored
— so submission does not validate "date not blocked" (nor re-check
availability; both are only enforced upstream by the UI). -/
theorem claim9_counterexample :
    "2025-12-25" ∈ (Store.mk [] ["2025-12-25"]).blackoutDates ∧
    (handleBookingSubmit (Store.mk [] ["2025-12-25"]) inpBlockedDate
        "booking-1" "2025-10-26T10:30:00Z").2.isSome = true ∧
    (handleBookingSubmit (Store.mk [] ["2025-12-25"]) inpBlockedDate
        "booking-1" "2025-10-26T10:30:00Z").1.bookings.length = 1 := by
  decide

/-- C9 (amended): submission validates exactly the five required form fields
(name; phone of the loose shape with ≥ 10 digits; email of basic shape;
non-empty service and time selections) plus the presence of a selected date,
time and service — and nothing else: the outcome is independent of the
blackout list, so neither "date not blocked" nor "time still available" is
re-checked at submission time. -/
theorem claim9_amended :
    (∀ (store : Store) (inp : SubmitInput) (newId createdAt : String),
      (handleBookingSubmit store inp newId createdAt).2.isSome = true ↔
        (submitFieldErrors inp = [] ∧ inp.selectedDate.isSome = true ∧
         inp.selectedTime.isSome = true ∧ inp.selectedService.isSome = true)) ∧
    (∀ (bookings : List Booking) (bl bl' : List String) (inp : SubmitInput)
        (newId createdAt : String),
      (handleBookingSubmit ⟨bookings, bl⟩ inp newId createdAt).1.bookings =
        (handleBookingSubmit ⟨bookings, bl'⟩ inp newId createdAt).1.bookings ∧
      (handleBookingSubmit ⟨bookings, bl⟩ inp newId createdAt).2 =
        (handleBookingSubmit ⟨bookings, bl'⟩ inp newId createdAt).2) := by
  constructor
  · intro store inp newId createdAt
    have hiff := fieldsValid_iff_no_errors inp
    cases hall : (requiredFields inp).all (fun f => (validateField f).isNone) with
    | true =>
      have herr : submitFieldErrors inp = [] := hiff.mp hall
      rcases hsv : inp.selectedService with _ | svc <;>
        rcases hdt : inp.selectedDate with _ | d <;>
          rcases htm : inp.selectedTime with _ | t <;>
            simp [handleBookingSubmit, hall, hsv, hdt, htm, herr, createBooking]
    | false =>
      have herr : submitFieldErrors inp ≠ [] := by
        intro he
        rw [hiff.mpr he] at hall
        simp at hall
      simp [handleBookingSubmit, hall, herr]
  · intro bookings bl bl' inp newId createdAt
    refine ⟨?_, ?_⟩ <;>
      (cases hall : (requiredFields inp).all (fun f => (validateField f).isNone) <;>
        rcases hsv : inp.selectedService with _ | svc <;>
          rcases hdt : inp.selectedDate with _ | d <;>
            rcases htm : inp.selectedTime with _ | t <;>
              simp [handleBookingSubmit, hall, hsv, hdt, htm, createBooking])

/-- C10: `parseTimeRestriction` is total and defensive at its interface:
null, undefined, booleans, numbers and plain strings (all the non-array
notes values) yield no restriction; so does a note list with no
phrase-carrying string and a first phrase-carrying note lacking the
`<digits><AM|PM>` pattern; and a service whose notes yield no restriction
never has a time flagged by `violatesTimeRestriction`. -/
theorem claim10 :
    parseTimeRestriction .null = none ∧
    parseTimeRestriction .undef = none ∧
    (∀ b, parseTimeRestriction (.bool b) = none) ∧
    (∀ q, parseTimeRestriction (.num q) = none) ∧
    (∀ s, parseTimeRestriction (.str s) = none) ∧
    (∀ xs, (∀ v ∈ xs, hasRestrictionPhrase v = false) →
      parseTimeRestriction (.arr xs) = none) ∧
    (∀ (pre : List JsValue) (s : String) (post : List JsValue),
      (∀ v ∈ pre, hasRestrictionPhrase v = false) →
      hasRestrictionPhrase (.str s) = true → findAmPm s.toList = none →
      parseTimeRestriction (.arr (pre ++ .str s :: post)) = none) ∧
    (∀ (svc : Service) (t : String), parseTimeRestriction svc.notes = none →
      violatesTimeRestriction svc t = false) := by
  refine ⟨rfl, rfl, fun b => rfl, fun q => rfl, fun s => rfl, parse_no_phrase, ?_, ?_⟩
  · intro pre s post hpre hs hnone
    rw [parse_first_phrase pre s post hpre hs, hnone]
    rfl
  · intro svc t hnone
    simp [violatesTimeRestriction, hnone]

/-- C10 (witness): a phrase-carrying note with no `<digits><AM|PM>` pattern
yields no restriction. -/
theorem claim10_witness :
    parseTimeRestriction (.arr ([] ++ .str "DO NOT BOOK AFTER lunch" :: [])) = none :=
  claim10.2.2.2.2.2.2.1 [] "DO NOT BOOK AFTER lunch" [] (by simp) (by decide) (by decide)

end Sallybraids
